import Mathlib

/-!
Shallow embedding of the vboxsf guest shared-folder driver core
(regular-file operations from file.c, directory operations from dir.c).

Host interactions (the remote call gateway) are modelled as explicit
function parameters returning the host response; kernel-side effects
(remote close calls, page flags, issued transfer lengths) are recorded
in explicit output records so that theorems can speak about them.
-/

set_option maxHeartbeats 1000000

namespace Vboxsf

/-! ## Protocol and kernel constants

Flag and errno values used by the embedded functions.  The shared-folder
protocol header is not among the embedded sources; the flag constants
below follow the VirtualBox shared-folders interface (each named flag is
a distinct bit, access flags read=0x1000 / write=0x2000 with
readwrite their union, append=0x4000), as the spec describes the
access-mode flags read/write/read-write/append.
-/

def SHFL_HANDLE_NIL : Nat := 2 ^ 64 - 1

def SHFL_CF_DIRECTORY : Nat := 0x4

def SHFL_CF_ACT_OPEN_IF_EXISTS : Nat := 0x00
def SHFL_CF_ACT_FAIL_IF_EXISTS : Nat := 0x10
def SHFL_CF_ACT_REPLACE_IF_EXISTS : Nat := 0x20
def SHFL_CF_ACT_OVERWRITE_IF_EXISTS : Nat := 0x30
def SHFL_CF_ACT_CREATE_IF_NEW : Nat := 0x000
def SHFL_CF_ACT_FAIL_IF_NEW : Nat := 0x100

def SHFL_CF_ACCESS_READ : Nat := 0x1000
def SHFL_CF_ACCESS_WRITE : Nat := 0x2000
def SHFL_CF_ACCESS_READWRITE : Nat := 0x3000
def SHFL_CF_ACCESS_APPEND : Nat := 0x4000

def SHFL_TYPE_DIRECTORY : Nat := 0x4000
def SHFL_TYPE_FILE : Nat := 0x8000

def SHFL_RENAME_FILE : Nat := 0x1
def SHFL_RENAME_DIR : Nat := 0x2
def SHFL_RENAME_REPLACE_IF_EXISTS : Nat := 0x4

def SHFL_MAX_RW_COUNT : Nat := 16 * 1024 * 1024

/-- Linux x86 open flag O_ACCMODE. -/
def O_ACCMODE : Nat := 3
def O_RDONLY : Nat := 0
def O_WRONLY : Nat := 1
def O_RDWR : Nat := 2
def O_CREAT : Nat := 64
def O_TRUNC : Nat := 512
def O_APPEND : Nat := 1024

/-- Linux mode bit for directories (S_IFDIR). -/
def S_IFDIR : Nat := 0o40000

def PAGE_SIZE : Nat := 4096

/-- Errno values (returned negated, as in the C code). -/
def EPERM : Int := 1
def ENOENT : Int := 2
def EBADF : Int := 9
def ENOMEM : Int := 12
def EEXIST : Int := 17
def EINVAL : Int := 22

/-! ## Data model -/

/-- Disposition result reported by the host for a create/open call
(params.result). -/
inductive ShflResult where
  | noResult
  | fileExists
  | fileCreated
  | fileReplaced
  | pathNotFound
  | fileNotFound
deriving DecidableEq, Repr

/-- The create-parameters record (struct shfl_createparms) as filled in by
the guest before the remote call: requested handle sentinel, create flags
and requested attribute mode. -/
structure CreateParms where
  handle : Nat
  create_flags : Nat
  mode : Nat
deriving DecidableEq, Repr

/-- Host response to vboxsf_create_at_dentry: the top-level error, plus the
handle and disposition result stored back into the params record. -/
structure HostCreateResp where
  err : Int
  handle : Nat
  result : ShflResult
deriving DecidableEq, Repr

/-- struct sf_handle: one open remote handle owned by a node. -/
structure SfHandle where
  handle : Nat
  root : Nat
  access_flags : Nat
  refcount : Nat
deriving DecidableEq, Repr

/-- The per-inode information relevant here (struct sf_inode_info):
the open-handle list and the must-re-stat flag. -/
structure SfInodeInfo where
  handle_list : List SfHandle
  force_restat : Bool
deriving DecidableEq, Repr

/-! ## sf_reg_open (file.c) -/

/-- Result of sf_reg_open: the return value, the updated inode info, the
create flags sent to the host, the raw host response (err / params.handle /
params.result after the call) and the handle record inserted, if any. -/
structure RegOpenOut where
  ret : Int
  sf_i : SfInodeInfo
  createFlagsSent : Nat
  hostErr : Int
  hostHandle : Nat
  hostResult : ShflResult
  inserted : Option SfHandle
deriving DecidableEq, Repr

/-- The create_flags that sf_reg_open puts into the params record for a
given f_flags value (the disposition block at the top of the function). -/
def sf_reg_open_disp_flags (f_flags : Nat) : Nat :=
  if f_flags &&& O_CREAT ≠ 0 then
    SHFL_CF_ACT_CREATE_IF_NEW |||
      (if f_flags &&& O_TRUNC ≠ 0 then SHFL_CF_ACT_OVERWRITE_IF_EXISTS
       else SHFL_CF_ACT_OPEN_IF_EXISTS)
  else
    SHFL_CF_ACT_FAIL_IF_NEW |||
      (if f_flags &&& O_TRUNC ≠ 0 then SHFL_CF_ACT_OVERWRITE_IF_EXISTS
       else 0)

/-- The access_flags sf_reg_open derives from f_flags (the O_ACCMODE switch
plus the O_APPEND bit). -/
def sf_reg_open_access_flags (f_flags : Nat) : Nat :=
  (match f_flags &&& O_ACCMODE with
    | 0 => SHFL_CF_ACCESS_READ
    | 1 => SHFL_CF_ACCESS_WRITE
    | 2 => SHFL_CF_ACCESS_READWRITE
    | _ => 0) |||
  (if f_flags &&& O_APPEND ≠ 0 then SHFL_CF_ACCESS_APPEND else 0)

/-- The part of sf_reg_open after vboxsf_create_at_dentry returns: derive
the real error from a nil handle, and on success insert the new handle
record at the front of the inode handle list. -/
def sf_reg_open_core (root access_flags create_flags : Nat)
    (sf_i : SfInodeInfo) (r : HostCreateResp) : RegOpenOut :=
  let err : Int :=
    if r.err = 0 ∧ r.handle = SHFL_HANDLE_NIL then
      if r.result = .fileExists then -EEXIST else -ENOENT
    else r.err
  if err ≠ 0 then
    { ret := err, sf_i := sf_i, createFlagsSent := create_flags,
      hostErr := r.err, hostHandle := r.handle, hostResult := r.result,
      inserted := none }
  else
    let h : SfHandle :=
      { handle := r.handle, root := root, access_flags := access_flags,
        refcount := 1 }
    { ret := 0,
      sf_i := { handle_list := h :: sf_i.handle_list, force_restat := true },
      createFlagsSent := create_flags,
      hostErr := r.err, hostHandle := r.handle, hostResult := r.result,
      inserted := some h }

/-- sf_reg_open from file.c.  `allocOk` models the kmalloc of the sf_handle
record; `host` models vboxsf_create_at_dentry, mapping the filled-in params
to the host response. -/
def sf_reg_open (root i_mode : Nat) (sf_i : SfInodeInfo) (f_flags : Nat)
    (allocOk : Bool) (host : CreateParms → HostCreateResp) : RegOpenOut :=
  if !allocOk then
    { ret := -ENOMEM, sf_i := sf_i, createFlagsSent := 0, hostErr := 0,
      hostHandle := SHFL_HANDLE_NIL, hostResult := .noResult, inserted := none }
  else
    let access_flags := sf_reg_open_access_flags f_flags
    let params : CreateParms :=
      { handle := SHFL_HANDLE_NIL,
        create_flags := sf_reg_open_disp_flags f_flags ||| access_flags,
        mode := i_mode }
    sf_reg_open_core root access_flags params.create_flags sf_i (host params)

theorem sf_reg_open_core_hostErr (root af cf : Nat) (sf_i : SfInodeInfo)
    (r : HostCreateResp) :
    (sf_reg_open_core root af cf sf_i r).hostErr = r.err := by
  simp only [sf_reg_open_core]
  split
  all_goals split
  all_goals rfl

theorem sf_reg_open_core_hostHandle (root af cf : Nat) (sf_i : SfInodeInfo)
    (r : HostCreateResp) :
    (sf_reg_open_core root af cf sf_i r).hostHandle = r.handle := by
  simp only [sf_reg_open_core]
  split
  all_goals split
  all_goals rfl

theorem sf_reg_open_core_hostResult (root af cf : Nat) (sf_i : SfInodeInfo)
    (r : HostCreateResp) :
    (sf_reg_open_core root af cf sf_i r).hostResult = r.result := by
  simp only [sf_reg_open_core]
  split
  all_goals split
  all_goals rfl

/-- On a zero top-level error with a nil handle, sf_reg_open_core derives
the error from the disposition result and leaves the inode info alone. -/
theorem sf_reg_open_core_nil (root af cf : Nat) (sf_i : SfInodeInfo)
    (r : HostCreateResp) (h0 : r.err = 0) (hnil : r.handle = SHFL_HANDLE_NIL) :
    sf_reg_open_core root af cf sf_i r =
      { ret := if r.result = .fileExists then -EEXIST else -ENOENT,
        sf_i := sf_i, createFlagsSent := cf, hostErr := r.err,
        hostHandle := r.handle, hostResult := r.result, inserted := none } := by
  have hne : (if r.result = .fileExists then -EEXIST else (-ENOENT : Int)) ≠ 0 := by
    split <;> decide
  simp only [sf_reg_open_core, if_pos (And.intro h0 hnil), if_pos hne]

/-- Claim C1: when a regular file is opened with O_CREAT semantics and the
remote create/open call returns a zero top-level error but the returned
handle is the nil sentinel, sf_reg_open fails with -EEXIST if the
disposition result is fileExists and -ENOENT otherwise, and no handle
record is inserted into the inode handle list (which stays unchanged). -/
theorem sf_reg_open_nil_handle_error (root i_mode : Nat) (sf_i : SfInodeInfo)
    (f_flags : Nat) (host : CreateParms → HostCreateResp)
    (hcreat : f_flags &&& O_CREAT ≠ 0)
    (herr : (sf_reg_open root i_mode sf_i f_flags true host).hostErr = 0)
    (hnil : (sf_reg_open root i_mode sf_i f_flags true host).hostHandle =
      SHFL_HANDLE_NIL) :
    (sf_reg_open root i_mode sf_i f_flags true host).ret =
      (if (sf_reg_open root i_mode sf_i f_flags true host).hostResult =
          .fileExists then -EEXIST else -ENOENT) ∧
    (sf_reg_open root i_mode sf_i f_flags true host).sf_i = sf_i ∧
    (sf_reg_open root i_mode sf_i f_flags true host).inserted = none := by
  have hfalse : ¬((!true) = true) := by decide
  simp only [sf_reg_open, if_neg hfalse] at herr hnil ⊢
  rw [sf_reg_open_core_hostErr] at herr
  rw [sf_reg_open_core_hostHandle] at hnil
  rw [sf_reg_open_core_nil _ _ _ _ _ herr hnil]
  exact ⟨rfl, rfl, rfl⟩

/-- Witness for C1 at a concrete input: O_CREAT open, host reports success
with a nil handle and result fileExists. -/
theorem sf_reg_open_nil_handle_error_witness :
    (sf_reg_open 1 420 ⟨[], false⟩ (O_CREAT ||| O_WRONLY) true
        (fun _ => ⟨0, SHFL_HANDLE_NIL, .fileExists⟩)).ret = -EEXIST ∧
    (sf_reg_open 1 420 ⟨[], false⟩ (O_CREAT ||| O_WRONLY) true
        (fun _ => ⟨0, SHFL_HANDLE_NIL, .fileExists⟩)).sf_i = ⟨[], false⟩ := by
  have h := sf_reg_open_nil_handle_error 1 420 ⟨[], false⟩ (O_CREAT ||| O_WRONLY)
    (fun _ => ⟨0, SHFL_HANDLE_NIL, .fileExists⟩) (by decide) (by decide) (by decide)
  refine ⟨?_, h.2.1⟩
  rw [h.1]
  decide

/-! ## sf_reg_read and sf_reg_write (file.c) -/

/-- Host response to vboxsf_read / vboxsf_write: top-level error and the
byte count written back through the in-out count parameter. -/
structure HostIoResp where
  err : Int
  count : Nat
deriving DecidableEq, Repr

/-- Result of sf_reg_read: return value, updated file offset, and the
(position, length) of the remote read that was issued, if any. -/
structure RegReadOut where
  ret : Int
  off : Nat
  issuedPos : Option Nat
  issuedLen : Option Nat
deriving DecidableEq, Repr

/-- sf_reg_read from file.c.  `host` models vboxsf_read, taking the
position and the requested count. -/
def sf_reg_read (size off : Nat) (host : Nat → Nat → HostIoResp) :
    RegReadOut :=
  if size = 0 then
    { ret := 0, off := off, issuedPos := none, issuedLen := none }
  else
    let nread := if size > SHFL_MAX_RW_COUNT then SHFL_MAX_RW_COUNT else size
    let r := host off nread
    if r.err ≠ 0 then
      { ret := r.err, off := off, issuedPos := some off, issuedLen := some nread }
    else
      { ret := (r.count : Int), off := off + r.count,
        issuedPos := some off, issuedLen := some nread }

/-- Result of sf_reg_write: return value, updated tracked inode size,
must-re-stat flag, updated file offset, and the (position, length) of the
remote write that was issued, if any. -/
structure RegWriteOut where
  ret : Int
  i_size : Nat
  force_restat : Bool
  off : Nat
  issuedPos : Option Nat
  issuedLen : Option Nat
deriving DecidableEq, Repr

/-- sf_reg_write from file.c.  `flushErr` models the result of
filemap_fdatawait_range (flushing pending mmap writes); `host` models
vboxsf_write, taking the position and the requested count.  The page-cache
invalidation call has no observable effect on the modelled state. -/
def sf_reg_write (f_flags size off i_size : Nat) (force_restat : Bool)
    (flushErr : Int) (host : Nat → Nat → HostIoResp) : RegWriteOut :=
  let pos := if f_flags &&& O_APPEND ≠ 0 then i_size else off
  if size = 0 then
    { ret := 0, i_size := i_size, force_restat := force_restat, off := off,
      issuedPos := none, issuedLen := none }
  else
    let nwritten := if size > SHFL_MAX_RW_COUNT then SHFL_MAX_RW_COUNT else size
    if flushErr ≠ 0 then
      { ret := flushErr, i_size := i_size, force_restat := force_restat,
        off := off, issuedPos := none, issuedLen := none }
    else
      let r := host pos nwritten
      if r.err ≠ 0 then
        { ret := r.err, i_size := i_size, force_restat := force_restat,
          off := off, issuedPos := some pos, issuedLen := some nwritten }
      else
        { ret := (r.count : Int),
          i_size := if i_size < pos + r.count then pos + r.count else i_size,
          force_restat := true, off := pos + r.count,
          issuedPos := some pos, issuedLen := some nwritten }

/-- Claim C5: a write of k > 0 bytes at offset off (non-append mode) issues
one remote write whose requested length is the size clamped to
SHFL_MAX_RW_COUNT; on host success, if off plus the count written exceeds
the tracked size then the tracked size becomes off plus that count (in
particular a write at offset i_size that the host serves fully grows the
size by exactly the host-written count), and the must-re-stat flag is
set. -/
theorem sf_reg_write_clamp_and_extend (f_flags size off i_size : Nat)
    (force_restat : Bool) (host : Nat → Nat → HostIoResp)
    (hk : 0 < size) (happ : f_flags &&& O_APPEND = 0) :
    (sf_reg_write f_flags size off i_size force_restat 0 host).issuedPos =
      some off ∧
    (sf_reg_write f_flags size off i_size force_restat 0 host).issuedLen =
      some (if size > SHFL_MAX_RW_COUNT then SHFL_MAX_RW_COUNT else size) ∧
    ((host off (if size > SHFL_MAX_RW_COUNT then SHFL_MAX_RW_COUNT
        else size)).err = 0 →
      (i_size < off + (host off (if size > SHFL_MAX_RW_COUNT then
          SHFL_MAX_RW_COUNT else size)).count →
        (sf_reg_write f_flags size off i_size force_restat 0 host).i_size =
          off + (host off (if size > SHFL_MAX_RW_COUNT then SHFL_MAX_RW_COUNT
            else size)).count) ∧
      (sf_reg_write f_flags size off i_size force_restat 0 host).force_restat =
        true ∧
      (off = i_size →
        0 < (host off (if size > SHFL_MAX_RW_COUNT then SHFL_MAX_RW_COUNT
          else size)).count →
        (sf_reg_write f_flags size off i_size force_restat 0 host).i_size =
          i_size + (host off (if size > SHFL_MAX_RW_COUNT then
            SHFL_MAX_RW_COUNT else size)).count)) := by
  have hsz : ¬(size = 0) := Nat.pos_iff_ne_zero.mp hk
  have hposneg : ¬(f_flags &&& O_APPEND ≠ 0) := by simp [happ]
  simp only [sf_reg_write, if_neg hposneg, if_neg hsz,
    if_neg (show ¬((0 : Int) ≠ 0) by simp)]
  by_cases herr : (host off (if size > SHFL_MAX_RW_COUNT then SHFL_MAX_RW_COUNT
      else size)).err = 0
  · rw [if_neg (not_not_intro herr)]
    refine ⟨rfl, rfl, fun _ => ⟨fun hlt => ?_, rfl, fun hoff hcnt => ?_⟩⟩
    · exact if_pos hlt
    · subst hoff
      exact if_pos (Nat.lt_add_of_pos_right hcnt)
  · rw [if_pos herr]
    exact ⟨rfl, rfl, fun h => absurd h herr⟩

/-- Witness for C5: write 10 bytes at offset 100 of a 100-byte file, host
serves the full request. -/
theorem sf_reg_write_clamp_and_extend_witness :
    (sf_reg_write O_WRONLY 10 100 100 false 0
      (fun _ n => ⟨0, n⟩)).issuedLen = some 10 ∧
    (sf_reg_write O_WRONLY 10 100 100 false 0
      (fun _ n => ⟨0, n⟩)).i_size = 110 ∧
    (sf_reg_write O_WRONLY 10 100 100 false 0
      (fun _ n => ⟨0, n⟩)).force_restat = true := by
  have h := sf_reg_write_clamp_and_extend O_WRONLY 10 100 100 false
    (fun _ n => ⟨0, n⟩) (by decide) (by decide)
  refine ⟨?_, ?_, ?_⟩
  · rw [h.2.1]; decide
  · have h3 := (h.2.2 (by decide)).2.2 (by decide) (by decide)
    rw [h3]; decide
  · exact (h.2.2 (by decide)).2.1

/-- Claim C10: a read or a write of zero bytes on an open regular file
returns 0 immediately: no remote call is issued, the file position is
unchanged, and the tracked size and must-re-stat flag are unchanged. -/
theorem sf_zero_size_rw_noop (off : Nat) (hostR : Nat → Nat → HostIoResp)
    (f_flags off2 i_size : Nat) (force_restat : Bool) (flushErr : Int)
    (hostW : Nat → Nat → HostIoResp) :
    sf_reg_read 0 off hostR =
      { ret := 0, off := off, issuedPos := none, issuedLen := none } ∧
    sf_reg_write f_flags 0 off2 i_size force_restat flushErr hostW =
      { ret := 0, i_size := i_size, force_restat := force_restat, off := off2,
        issuedPos := none, issuedLen := none } := by
  constructor
  · rfl
  · rfl

/-! ## Handle reference counting (file.c: kref_init / kref_get / kref_put
with sf_handle_release)

A handle starts at refcount 1 when sf_reg_open creates it (kref_init).
Each writable-handle acquisition in sf_get_writeable_handle does kref_get;
each release (sf_reg_release, or sf_writepage when done) does kref_put with
sf_handle_release as the release callback, which issues the single
vboxsf_close for the handle.  The state machine below records the current
reference count and the number of remote closes issued so far.
-/

/-- An operation on one handle refcount: kref_get (acquire) or kref_put
(release). -/
inductive KrefOp where
  | get
  | put
deriving DecidableEq, Repr

/-- Refcount state of one sf_handle: current count and the number of
vboxsf_close calls issued for it. -/
structure KrefState where
  count : Nat
  closes : Nat
deriving DecidableEq, Repr

/-- One kref operation.  kref_put decrements; when the count drops to zero
it runs sf_handle_release, which calls vboxsf_close exactly once. -/
def kref_step (s : KrefState) : KrefOp → KrefState
  | .get => { s with count := s.count + 1 }
  | .put =>
    if s.count = 1 then { count := 0, closes := s.closes + 1 }
    else { s with count := s.count - 1 }

/-- Run a sequence of kref operations from the state kref_init leaves
behind in sf_reg_open: refcount 1, no close issued yet. -/
def runKref (ops : List KrefOp) : KrefState :=
  ops.foldl kref_step { count := 1, closes := 0 }

/-- The invariant tying closes to the refcount: the remote close has been
issued exactly when the count has reached zero. -/
def krefInv (s : KrefState) : Prop :=
  (0 < s.count ∧ s.closes = 0) ∨ (s.count = 0 ∧ s.closes = 1)

theorem kref_step_inv (s : KrefState) (op : KrefOp) (h : krefInv s)
    (hc : 0 < s.count) : krefInv (kref_step s op) := by
  have hcl : s.closes = 0 := by
    rcases h with ⟨_, h0⟩ | ⟨hz, _⟩
    · exact h0
    · omega
  cases op with
  | get => exact Or.inl ⟨Nat.succ_pos _, hcl⟩
  | put =>
    simp only [kref_step]
    split
    · exact Or.inr ⟨rfl, by rw [hcl]⟩
    · next h1 => exact Or.inl ⟨show 0 < s.count - 1 by omega, hcl⟩

theorem kref_foldl_inv (ops : List KrefOp) :
    ∀ s : KrefState, krefInv s →
      (∀ n, n < ops.length → 0 < ((ops.take n).foldl kref_step s).count) →
      krefInv (ops.foldl kref_step s) := by
  induction ops with
  | nil => intro s h _; simpa using h
  | cons op t ih =>
    intro s h hpre
    have h0 : 0 < s.count := by simpa using hpre 0 (by simp)
    have h1 : krefInv (kref_step s op) := kref_step_inv s op h h0
    refine ih (kref_step s op) h1 (fun n hn => ?_)
    have := hpre (n + 1) (by simpa using Nat.succ_lt_succ hn)
    simpa [List.take_succ_cons] using this

/-- Claim C2: starting from the open that created the handle with count 1,
for any sequence of acquisitions and releases that keeps the count positive
until the end and nets to zero at the end, the remote close is issued
exactly once, and it is never issued while the count is still positive. -/
theorem sf_handle_close_exactly_once (ops : List KrefOp)
    (hpos : ∀ n, n < ops.length → 0 < (runKref (ops.take n)).count)
    (hzero : (runKref ops).count = 0) :
    (runKref ops).closes = 1 ∧
      ∀ n, 0 < (runKref (ops.take n)).count →
        (runKref (ops.take n)).closes = 0 := by
  have hinv0 : krefInv { count := 1, closes := 0 } := Or.inl ⟨Nat.one_pos, rfl⟩
  constructor
  · have hmain := kref_foldl_inv ops _ hinv0 hpos
    rcases hmain with ⟨hc, _⟩ | ⟨_, hcl⟩
    · rw [runKref] at hzero; omega
    · exact hcl
  · intro n hn
    have hpref : krefInv (runKref (ops.take n)) := by
      refine kref_foldl_inv (ops.take n) _ hinv0 (fun m hm => ?_)
      have hmn : m < n := by
        have := List.length_take_le n ops
        omega
      have hml : m < ops.length := by
        have := hm
        simp only [List.length_take] at this
        omega
      have heq : (ops.take n).take m = ops.take m := by
        rw [List.take_take, Nat.min_eq_left (Nat.le_of_lt hmn)]
      rw [heq]
      exact hpos m hml
    rcases hpref with ⟨_, hcl⟩ | ⟨hz, _⟩
    · exact hcl
    · omega

/-- Witness for C2: the opening reference, one writeback acquisition, and
two releases; the close is issued exactly once, at the end. -/
theorem sf_handle_close_exactly_once_witness :
    (runKref [KrefOp.get, KrefOp.put, KrefOp.put]).closes = 1 :=
  (sf_handle_close_exactly_once [KrefOp.get, KrefOp.put, KrefOp.put]
    (by decide) (by decide)).1

/-! ## sf_get_writeable_handle and sf_writepage (file.c) -/

/-- sf_get_writeable_handle from file.c: scan the inode handle list for
the first handle whose access_flags equal SHFL_CF_ACCESS_WRITE or
SHFL_CF_ACCESS_READWRITE; on a hit, kref_get it (refcount + 1).  Returns
the found handle (with its bumped count) and the updated list. -/
def sf_get_writeable_handle : List SfHandle → Option SfHandle × List SfHandle
  | [] => (none, [])
  | h :: t =>
    if h.access_flags = SHFL_CF_ACCESS_WRITE ∨
        h.access_flags = SHFL_CF_ACCESS_READWRITE then
      (some { h with refcount := h.refcount + 1 },
       { h with refcount := h.refcount + 1 } :: t)
    else
      let r := sf_get_writeable_handle t
      (r.1, h :: r.2)

/-- kref_put on the first list entry equal to the given handle record:
decrement its refcount; when the count drops to zero, sf_handle_release
runs, issuing the vboxsf_close for it and freeing the record (modelled as
removing it from the list).  Returns the updated list and the list of
handle ids closed. -/
def sf_kref_put_first : List SfHandle → SfHandle → List SfHandle × List Nat
  | [], _ => ([], [])
  | h :: t, x =>
    if h = x then
      if h.refcount = 1 then (t, [h.handle])
      else ({ h with refcount := h.refcount - 1 } :: t, [])
    else
      let r := sf_kref_put_first t x
      (h :: r.1, r.2)

/-- Result of sf_writepage: return value, the (offset, length) of the
remote write issued (if any), the handle list after the paired
kref_get/kref_put, remote closes issued by the put, the must-re-stat flag,
and the page uptodate / error flags. -/
structure WritepageOut where
  ret : Int
  issuedOff : Option Nat
  issuedLen : Option Nat
  handle_list : List SfHandle
  closes : List Nat
  force_restat : Bool
  pageUptodate : Bool
  pageError : Bool
deriving DecidableEq, Repr

/-- sf_writepage from file.c.  The page is identified by its index
(page_offset = index * PAGE_SIZE); `host` models vboxsf_write. -/
def sf_writepage (pageIndex i_size : Nat) (force_restat : Bool)
    (handles : List SfHandle) (pageUptodate pageError : Bool)
    (host : Nat → Nat → HostIoResp) : WritepageOut :=
  let off := pageIndex * PAGE_SIZE
  let nwrite := if i_size < off + PAGE_SIZE then i_size % PAGE_SIZE
                else PAGE_SIZE
  match sf_get_writeable_handle handles with
  | (none, _) =>
    { ret := -EBADF, issuedOff := none, issuedLen := none,
      handle_list := handles, closes := [], force_restat := force_restat,
      pageUptodate := pageUptodate, pageError := pageError }
  | (some h, l) =>
    let r := host off nwrite
    let p := sf_kref_put_first l h
    if r.err = 0 then
      { ret := 0, issuedOff := some off, issuedLen := some nwrite,
        handle_list := p.1, closes := p.2, force_restat := true,
        pageUptodate := pageUptodate, pageError := false }
    else
      { ret := r.err, issuedOff := some off, issuedLen := some nwrite,
        handle_list := p.1, closes := p.2, force_restat := force_restat,
        pageUptodate := false, pageError := pageError }

/-- The scan finds something exactly when the list has an entry whose
access_flags are exactly write-only or exactly read-write. -/
theorem sf_get_writeable_handle_isSome (l : List SfHandle) :
    (sf_get_writeable_handle l).1.isSome = true ↔
      ∃ h ∈ l, h.access_flags = SHFL_CF_ACCESS_WRITE ∨
        h.access_flags = SHFL_CF_ACCESS_READWRITE := by
  induction l with
  | nil => simp [sf_get_writeable_handle]
  | cons h t ih =>
    by_cases hc : h.access_flags = SHFL_CF_ACCESS_WRITE ∨
        h.access_flags = SHFL_CF_ACCESS_READWRITE
    · simp [sf_get_writeable_handle, if_pos hc, hc]
    · simp only [sf_get_writeable_handle, if_neg hc, List.mem_cons]
      constructor
      · intro hs
        rcases ih.mp hs with ⟨h0, hm, hf⟩
        exact ⟨h0, Or.inr hm, hf⟩
      · rintro ⟨h0, hm | hm, hf⟩
        · subst hm; exact absurd hf hc
        · exact ih.mpr ⟨h0, hm, hf⟩

/-- A found handle is an entry of the list whose refcount has been
incremented by one. -/
theorem sf_get_writeable_handle_found (l : List SfHandle) (h' : SfHandle)
    (hs : (sf_get_writeable_handle l).1 = some h') :
    ∃ h ∈ l, (h.access_flags = SHFL_CF_ACCESS_WRITE ∨
        h.access_flags = SHFL_CF_ACCESS_READWRITE) ∧
      h' = { h with refcount := h.refcount + 1 } := by
  induction l with
  | nil => simp [sf_get_writeable_handle] at hs
  | cons h t ih =>
    by_cases hc : h.access_flags = SHFL_CF_ACCESS_WRITE ∨
        h.access_flags = SHFL_CF_ACCESS_READWRITE
    · simp only [sf_get_writeable_handle, if_pos hc, Option.some.injEq] at hs
      exact ⟨h, List.mem_cons_self h t, hc, hs.symm⟩
    · simp only [sf_get_writeable_handle, if_neg hc] at hs
      rcases ih hs with ⟨h0, hm, hf, he⟩
      exact ⟨h0, List.mem_cons_of_mem h hm, hf, he⟩

/-- Claim C4 (amended): acquiring a writable handle succeeds iff the handle
set contains a handle whose access flags are exactly write-only or exactly
read-write (handles carrying the append flag never match); on success the
found handle has its reference count incremented by one; when no handle is
found, sf_writepage fails with -EBADF. -/
theorem sf_get_writeable_handle_spec (l : List SfHandle)
    (pageIndex i_size : Nat) (fr up pe : Bool) (host : Nat → Nat → HostIoResp) :
    ((sf_get_writeable_handle l).1.isSome = true ↔
      ∃ h ∈ l, h.access_flags = SHFL_CF_ACCESS_WRITE ∨
        h.access_flags = SHFL_CF_ACCESS_READWRITE) ∧
    (∀ h', (sf_get_writeable_handle l).1 = some h' →
      ∃ h ∈ l, (h.access_flags = SHFL_CF_ACCESS_WRITE ∨
          h.access_flags = SHFL_CF_ACCESS_READWRITE) ∧
        h' = { h with refcount := h.refcount + 1 }) ∧
    ((sf_get_writeable_handle l).1 = none →
      (sf_writepage pageIndex i_size fr l up pe host).ret = -EBADF) := by
  refine ⟨sf_get_writeable_handle_isSome l,
    fun h' hs => sf_get_writeable_handle_found l h' hs, fun hnone => ?_⟩
  simp only [sf_writepage]
  split
  · rfl
  · next h l2 heq =>
    rw [heq] at hnone
    exact absurd hnone (by simp)

/-- Witness for C4 (amended) at a concrete input: a single read-write
handle is found and its refcount goes from 1 to 2. -/
theorem sf_get_writeable_handle_spec_witness :
    ∃ h, h ∈ [(⟨3, 0, SHFL_CF_ACCESS_READWRITE, 1⟩ : SfHandle)] ∧
      (h.access_flags = SHFL_CF_ACCESS_WRITE ∨
        h.access_flags = SHFL_CF_ACCESS_READWRITE) ∧
      (⟨3, 0, SHFL_CF_ACCESS_READWRITE, 2⟩ : SfHandle) =
        { h with refcount := h.refcount + 1 } :=
  (sf_get_writeable_handle_spec [⟨3, 0, SHFL_CF_ACCESS_READWRITE, 1⟩]
    0 0 false false false (fun _ _ => ⟨0, 0⟩)).2.1
    ⟨3, 0, SHFL_CF_ACCESS_READWRITE, 2⟩ (by decide)

/-- Counterexample for C4 as stated: a handle opened through sf_reg_open
with O_WRONLY plus O_APPEND has access flags write plus append, whose
access mode does include write access, yet the scan finds nothing and page
writeback fails with -EBADF. -/
theorem sf_get_writeable_handle_append_cex :
    (sf_reg_open 0 420 ⟨[], false⟩ (O_WRONLY ||| O_APPEND) true
        (fun _ => ⟨0, 5, .fileExists⟩)).sf_i.handle_list =
      [⟨5, 0, SHFL_CF_ACCESS_WRITE ||| SHFL_CF_ACCESS_APPEND, 1⟩] ∧
    (SHFL_CF_ACCESS_WRITE ||| SHFL_CF_ACCESS_APPEND) &&&
      SHFL_CF_ACCESS_WRITE ≠ 0 ∧
    (sf_get_writeable_handle
      [⟨5, 0, SHFL_CF_ACCESS_WRITE ||| SHFL_CF_ACCESS_APPEND, 1⟩]).1 = none ∧
    (sf_writepage 0 4096 false
      [⟨5, 0, SHFL_CF_ACCESS_WRITE ||| SHFL_CF_ACCESS_APPEND, 1⟩]
      true false (fun _ _ => ⟨0, 4096⟩)).ret = -EBADF := by
  decide

/-- Claim C9 (amended): for a page writeback with a writable handle
available, when the page lies entirely inside the tracked size the
transfer length is exactly PAGE_SIZE, and when the page straddles
end-of-file (off < size < off + PAGE_SIZE) the transfer length is the
remaining valid bytes size - off; on host success the page error flag is
cleared, the node is marked for re-stat and 0 is returned; on host failure
the error is returned and the page uptodate flag is cleared (the cached
copy is invalidated rather than the page being re-marked dirty). -/
theorem sf_writepage_clamp_spec (pageIndex i_size : Nat) (fr up pe : Bool)
    (handles : List SfHandle) (host : Nat → Nat → HostIoResp)
    (hfound : (sf_get_writeable_handle handles).1.isSome = true) :
    (pageIndex * PAGE_SIZE + PAGE_SIZE ≤ i_size →
      (sf_writepage pageIndex i_size fr handles up pe host).issuedLen =
        some PAGE_SIZE) ∧
    (pageIndex * PAGE_SIZE < i_size →
      i_size < pageIndex * PAGE_SIZE + PAGE_SIZE →
      (sf_writepage pageIndex i_size fr handles up pe host).issuedLen =
        some (i_size - pageIndex * PAGE_SIZE)) ∧
    ((host (pageIndex * PAGE_SIZE)
        (if i_size < pageIndex * PAGE_SIZE + PAGE_SIZE then i_size % PAGE_SIZE
         else PAGE_SIZE)).err = 0 →
      (sf_writepage pageIndex i_size fr handles up pe host).pageError = false ∧
      (sf_writepage pageIndex i_size fr handles up pe host).force_restat =
        true ∧
      (sf_writepage pageIndex i_size fr handles up pe host).ret = 0) ∧
    ((host (pageIndex * PAGE_SIZE)
        (if i_size < pageIndex * PAGE_SIZE + PAGE_SIZE then i_size % PAGE_SIZE
         else PAGE_SIZE)).err ≠ 0 →
      (sf_writepage pageIndex i_size fr handles up pe host).pageUptodate =
        false ∧
      (sf_writepage pageIndex i_size fr handles up pe host).ret =
        (host (pageIndex * PAGE_SIZE)
          (if i_size < pageIndex * PAGE_SIZE + PAGE_SIZE then i_size % PAGE_SIZE
           else PAGE_SIZE)).err) := by
  rcases hmatch : sf_get_writeable_handle handles with ⟨o, l⟩
  cases o with
  | none => rw [hmatch] at hfound; simp at hfound
  | some h =>
    simp only [sf_writepage, hmatch]
    by_cases herr : (host (pageIndex * PAGE_SIZE)
        (if i_size < pageIndex * PAGE_SIZE + PAGE_SIZE then i_size % PAGE_SIZE
         else PAGE_SIZE)).err = 0
    · rw [if_pos herr]
      refine ⟨fun hin => ?_, fun hlo hhi => ?_, fun _ => ⟨rfl, rfl, rfl⟩,
        fun hne => absurd herr hne⟩
      · have hcond : ¬(i_size < pageIndex * PAGE_SIZE + PAGE_SIZE) := by omega
        simp only [if_neg hcond]
      · have hcond : i_size < pageIndex * PAGE_SIZE + PAGE_SIZE := hhi
        have hmod : i_size % PAGE_SIZE = i_size - pageIndex * PAGE_SIZE := by
          simp only [PAGE_SIZE] at *
          omega
        simp only [if_pos hcond, hmod]
    · rw [if_neg herr]
      refine ⟨fun hin => ?_, fun hlo hhi => ?_, fun h0 => absurd h0 herr,
        fun _ => ⟨rfl, rfl⟩⟩
      · have hcond : ¬(i_size < pageIndex * PAGE_SIZE + PAGE_SIZE) := by omega
        simp only [if_neg hcond]
      · have hcond : i_size < pageIndex * PAGE_SIZE + PAGE_SIZE := hhi
        have hmod : i_size % PAGE_SIZE = i_size - pageIndex * PAGE_SIZE := by
          simp only [PAGE_SIZE] at *
          omega
        simp only [if_pos hcond, hmod]

/-- Witness for C9 (amended): writeback of page 1 of a 6000-byte file
issues a write of 6000 - 4096 = 1904 bytes; on success the node is marked
for re-stat. -/
theorem sf_writepage_clamp_spec_witness :
    (sf_writepage 1 6000 false [⟨7, 0, SHFL_CF_ACCESS_WRITE, 1⟩] true false
      (fun _ _ => ⟨0, 1904⟩)).issuedLen = some 1904 ∧
    (sf_writepage 1 6000 false [⟨7, 0, SHFL_CF_ACCESS_WRITE, 1⟩] true false
      (fun _ _ => ⟨0, 1904⟩)).force_restat = true := by
  have h := sf_writepage_clamp_spec 1 6000 false true false
    [⟨7, 0, SHFL_CF_ACCESS_WRITE, 1⟩] (fun _ _ => ⟨0, 1904⟩) (by decide)
  exact ⟨by rw [h.2.1 (by decide) (by decide)]; decide, (h.2.2.1 (by decide)).2.1⟩

/-- Counterexample for C9 as stated: on a failing host write the page
uptodate flag is cleared (the cached data is invalidated, to be re-read
from the host) and the error is returned; the page is not re-marked dirty,
so the written data is not retained for retry.  Also, for a page whose
offset is past end-of-file the issued length is size & (PAGE_SIZE - 1),
not size - off (which would be negative). -/
theorem sf_writepage_failure_flags_cex :
    (sf_writepage 0 4096 false [⟨7, 0, SHFL_CF_ACCESS_WRITE, 1⟩] true false
      (fun _ _ => ⟨-5, 0⟩)).pageUptodate = false ∧
    (sf_writepage 0 4096 false [⟨7, 0, SHFL_CF_ACCESS_WRITE, 1⟩] true false
      (fun _ _ => ⟨-5, 0⟩)).ret = -5 ∧
    (sf_writepage 1 100 false [⟨7, 0, SHFL_CF_ACCESS_WRITE, 1⟩] true false
      (fun _ _ => ⟨0, 100⟩)).issuedLen = some 100 ∧
    (100 : Int) - 4096 < 0 := by
  decide

/-! ## sf_create_aux, sf_create, sf_mkdir (dir.c) -/

/-- Result of sf_create_aux: return value, the handle ids passed to
vboxsf_close (in order), the raw host response, and the parent
must-re-stat flag. -/
structure CreateAuxOut where
  ret : Int
  closedHandles : List Nat
  hostErr : Int
  hostHandle : Nat
  hostResult : ShflResult
  parent_restat : Bool
deriving DecidableEq, Repr

/-- The part of sf_create_aux after vboxsf_create_at_dentry returns: a
failed call or a disposition other than fileCreated is an error; otherwise
the obtained handle is closed and the new inode instantiated. -/
def sf_create_aux_core (parent_restat : Bool) (r : HostCreateResp)
    (instErr : Int) : CreateAuxOut :=
  if r.err ≠ 0 then
    { ret := r.err, closedHandles := [], hostErr := r.err,
      hostHandle := r.handle, hostResult := r.result,
      parent_restat := parent_restat }
  else if r.result ≠ .fileCreated then
    { ret := -EPERM, closedHandles := [], hostErr := r.err,
      hostHandle := r.handle, hostResult := r.result,
      parent_restat := parent_restat }
  else if instErr ≠ 0 then
    { ret := instErr, closedHandles := [r.handle], hostErr := r.err,
      hostHandle := r.handle, hostResult := r.result,
      parent_restat := parent_restat }
  else
    { ret := 0, closedHandles := [r.handle], hostErr := r.err,
      hostHandle := r.handle, hostResult := r.result, parent_restat := true }

/-- sf_create_aux from dir.c: exclusive create of a file or directory.
`host` models vboxsf_create_at_dentry; `instErr` models the result of
sf_instantiate (0 on success, negative errno on allocation failure). -/
def sf_create_aux (parent_restat : Bool) (mode : Nat) (is_dir : Bool)
    (host : CreateParms → HostCreateResp) (instErr : Int) : CreateAuxOut :=
  let params : CreateParms :=
    { handle := SHFL_HANDLE_NIL,
      create_flags := SHFL_CF_ACT_CREATE_IF_NEW ||| SHFL_CF_ACT_FAIL_IF_EXISTS |||
        SHFL_CF_ACCESS_READWRITE ||| (if is_dir then SHFL_CF_DIRECTORY else 0),
      mode := (if is_dir then SHFL_TYPE_DIRECTORY else SHFL_TYPE_FILE) |||
        (mode &&& 0o777) }
  sf_create_aux_core parent_restat (host params) instErr

theorem sf_create_aux_core_hostErr (pr : Bool) (r : HostCreateResp)
    (ie : Int) : (sf_create_aux_core pr r ie).hostErr = r.err := by
  simp only [sf_create_aux_core]
  split
  · rfl
  · split
    · rfl
    · split
      all_goals rfl

theorem sf_create_aux_core_hostHandle (pr : Bool) (r : HostCreateResp)
    (ie : Int) : (sf_create_aux_core pr r ie).hostHandle = r.handle := by
  simp only [sf_create_aux_core]
  split
  · rfl
  · split
    · rfl
    · split
      all_goals rfl

theorem sf_create_aux_core_hostResult (pr : Bool) (r : HostCreateResp)
    (ie : Int) : (sf_create_aux_core pr r ie).hostResult = r.result := by
  simp only [sf_create_aux_core]
  split
  · rfl
  · split
    · rfl
    · split
      all_goals rfl

theorem sf_create_aux_core_created (pr : Bool) (r : HostCreateResp) (ie : Int)
    (h0 : r.err = 0) (hres : r.result = .fileCreated) :
    (sf_create_aux_core pr r ie).closedHandles = [r.handle] := by
  simp only [sf_create_aux_core, if_neg (not_not_intro h0),
    if_neg (not_not_intro hres)]
  split
  all_goals rfl

theorem sf_create_aux_core_not_created (pr : Bool) (r : HostCreateResp)
    (ie : Int) (h0 : r.err = 0) (hres : r.result ≠ .fileCreated) :
    (sf_create_aux_core pr r ie).ret = -EPERM ∧
      (sf_create_aux_core pr r ie).closedHandles = [] := by
  simp only [sf_create_aux_core, if_neg (not_not_intro h0), if_pos hres]
  exact ⟨trivial, trivial⟩

/-- sf_create from dir.c (regular-file creation). -/
def sf_create (parent_restat : Bool) (mode : Nat)
    (host : CreateParms → HostCreateResp) (instErr : Int) : CreateAuxOut :=
  sf_create_aux parent_restat mode false host instErr

/-- sf_mkdir from dir.c (directory creation). -/
def sf_mkdir (parent_restat : Bool) (mode : Nat)
    (host : CreateParms → HostCreateResp) (instErr : Int) : CreateAuxOut :=
  sf_create_aux parent_restat mode true host instErr

/-- Claim C3 (amended): in sf_create_aux (hence create and mkdir), when the
host call succeeds with disposition fileCreated the obtained handle is
closed exactly once on every path, including the instantiation-failure
error path; but on an unexpected disposition result the function returns
-EPERM without issuing any close.  In sf_reg_open, an error return under a
zero top-level host error only happens when the returned handle is the nil
sentinel, so no obtained handle is left unclosed there. -/
theorem sf_create_open_close_policy (parent_restat : Bool) (mode : Nat)
    (is_dir : Bool) (host : CreateParms → HostCreateResp) (instErr : Int)
    (root i_mode : Nat) (sf_i : SfInodeInfo) (f_flags : Nat)
    (host2 : CreateParms → HostCreateResp) :
    ((sf_create_aux parent_restat mode is_dir host instErr).hostErr = 0 →
      (sf_create_aux parent_restat mode is_dir host instErr).hostResult =
        .fileCreated →
      (sf_create_aux parent_restat mode is_dir host instErr).closedHandles =
        [(sf_create_aux parent_restat mode is_dir host instErr).hostHandle]) ∧
    ((sf_create_aux parent_restat mode is_dir host instErr).hostErr = 0 →
      (sf_create_aux parent_restat mode is_dir host instErr).hostResult ≠
        .fileCreated →
      (sf_create_aux parent_restat mode is_dir host instErr).ret = -EPERM ∧
      (sf_create_aux parent_restat mode is_dir host instErr).closedHandles =
        []) ∧
    ((sf_reg_open root i_mode sf_i f_flags true host2).hostErr = 0 →
      (sf_reg_open root i_mode sf_i f_flags true host2).ret ≠ 0 →
      (sf_reg_open root i_mode sf_i f_flags true host2).hostHandle =
        SHFL_HANDLE_NIL ∧
      (sf_reg_open root i_mode sf_i f_flags true host2).inserted = none) := by
  refine ⟨?_, ?_, ?_⟩
  · intro h0 hres
    simp only [sf_create_aux] at h0 hres ⊢
    rw [sf_create_aux_core_hostErr] at h0
    rw [sf_create_aux_core_hostResult] at hres
    rw [sf_create_aux_core_hostHandle]
    exact sf_create_aux_core_created _ _ _ h0 hres
  · intro h0 hres
    simp only [sf_create_aux] at h0 hres ⊢
    rw [sf_create_aux_core_hostErr] at h0
    rw [sf_create_aux_core_hostResult] at hres
    exact sf_create_aux_core_not_created _ _ _ h0 hres
  · intro h0 hret
    have hfalse : ¬((!true) = true) := by decide
    simp only [sf_reg_open, if_neg hfalse] at h0 hret ⊢
    rw [sf_reg_open_core_hostErr] at h0
    by_cases hnil : (host2
        { handle := SHFL_HANDLE_NIL,
          create_flags := sf_reg_open_disp_flags f_flags |||
            sf_reg_open_access_flags f_flags,
          mode := i_mode }).handle = SHFL_HANDLE_NIL
    · rw [sf_reg_open_core_hostHandle, sf_reg_open_core_nil _ _ _ _ _ h0 hnil]
      exact ⟨hnil, rfl⟩
    · exfalso
      apply hret
      simp only [sf_reg_open_core]
      rw [if_neg (show ¬((host2
        { handle := SHFL_HANDLE_NIL,
          create_flags := sf_reg_open_disp_flags f_flags |||
            sf_reg_open_access_flags f_flags,
          mode := i_mode }).err = 0 ∧ (host2
        { handle := SHFL_HANDLE_NIL,
          create_flags := sf_reg_open_disp_flags f_flags |||
            sf_reg_open_access_flags f_flags,
          mode := i_mode }).handle = SHFL_HANDLE_NIL)
        from fun hand => hnil hand.2)]
      rw [if_neg (not_not_intro h0)]

/-- Witness for C3 (amended): successful exclusive create closes the
obtained handle exactly once. -/
theorem sf_create_open_close_policy_witness :
    (sf_create_aux false 420 false (fun _ => ⟨0, 7, .fileCreated⟩) 0).closedHandles =
      [(sf_create_aux false 420 false (fun _ => ⟨0, 7, .fileCreated⟩) 0).hostHandle] :=
  (sf_create_open_close_policy false 420 false (fun _ => ⟨0, 7, .fileCreated⟩) 0
    0 0 ⟨[], false⟩ 0 (fun _ => ⟨0, 7, .fileCreated⟩)).1 (by decide) (by decide)

/-- Counterexample for C3 as stated: the host answers the exclusive create
with a zero top-level error, disposition fileExists and a non-nil handle 5;
sf_create_aux returns the error -EPERM without closing handle 5. -/
theorem sf_create_aux_unclosed_handle_cex :
    (sf_create_aux false 420 false (fun _ => ⟨0, 5, .fileExists⟩) 0).ret =
      -EPERM ∧
    (sf_create_aux false 420 false (fun _ => ⟨0, 5, .fileExists⟩) 0).hostHandle =
      5 ∧
    (5 : Nat) ≠ SHFL_HANDLE_NIL ∧
    (sf_create_aux false 420 false (fun _ => ⟨0, 5, .fileExists⟩) 0).closedHandles =
      [] := by
  refine ⟨by decide, by decide, ?_, by decide⟩
  intro h
  simp only [SHFL_HANDLE_NIL] at h
  omega

/-! ## sf_rename (dir.c) -/

/-- Result of sf_rename: return value, whether the remote rename was
issued, the shfl flags it carried (if issued), and the two parent
must-re-stat flags. -/
structure RenameOut where
  ret : Int
  remoteIssued : Bool
  sentFlags : Option Nat
  old_parent_restat : Bool
  new_parent_restat : Bool
deriving DecidableEq, Repr

/-- sf_rename from dir.c.  `oldGlob` / `newGlob` identify the glob info
(the remote-root namespace) of the two parent superblocks; `oldPathErr` /
`newPathErr` model vboxsf_path_from_dentry (0 on success, the negative
PTR_ERR value on failure); `src_i_mode` is the mode of the source inode;
`hostErr` models vboxsf_rename. -/
def sf_rename (oldGlob newGlob : Nat) (opr npr : Bool) (flags : Nat)
    (oldPathErr newPathErr : Int) (src_i_mode : Nat) (hostErr : Int) :
    RenameOut :=
  if flags ≠ 0 then
    { ret := -EINVAL, remoteIssued := false, sentFlags := none,
      old_parent_restat := opr, new_parent_restat := npr }
  else if oldGlob ≠ newGlob then
    { ret := -EINVAL, remoteIssued := false, sentFlags := none,
      old_parent_restat := opr, new_parent_restat := npr }
  else if oldPathErr ≠ 0 then
    { ret := oldPathErr, remoteIssued := false, sentFlags := none,
      old_parent_restat := opr, new_parent_restat := npr }
  else if newPathErr ≠ 0 then
    { ret := newPathErr, remoteIssued := false, sentFlags := none,
      old_parent_restat := opr, new_parent_restat := npr }
  else
    let shfl_flags := if src_i_mode &&& S_IFDIR ≠ 0 then 0
                      else SHFL_RENAME_FILE ||| SHFL_RENAME_REPLACE_IF_EXISTS
    if hostErr = 0 then
      { ret := 0, remoteIssued := true, sentFlags := some shfl_flags,
        old_parent_restat := true, new_parent_restat := true }
    else
      { ret := hostErr, remoteIssued := true, sentFlags := some shfl_flags,
        old_parent_restat := opr, new_parent_restat := npr }

/-- Claim C6: rename with non-zero caller flags or across two different
remote-root namespaces fails with -EINVAL before any remote call; when the
source is a directory any issued remote rename carries flags 0 (never
the replace-if-exists flag); and a successful rename sets the must-re-stat
flag on both parents. -/
theorem sf_rename_spec (oldGlob newGlob : Nat) (opr npr : Bool) (flags : Nat)
    (oldPathErr newPathErr : Int) (src_i_mode : Nat) (hostErr : Int) :
    (flags ≠ 0 →
      (sf_rename oldGlob newGlob opr npr flags oldPathErr newPathErr
          src_i_mode hostErr).ret = -EINVAL ∧
      (sf_rename oldGlob newGlob opr npr flags oldPathErr newPathErr
          src_i_mode hostErr).remoteIssued = false) ∧
    (oldGlob ≠ newGlob →
      (sf_rename oldGlob newGlob opr npr flags oldPathErr newPathErr
          src_i_mode hostErr).ret = -EINVAL ∧
      (sf_rename oldGlob newGlob opr npr flags oldPathErr newPathErr
          src_i_mode hostErr).remoteIssued = false) ∧
    (src_i_mode &&& S_IFDIR ≠ 0 →
      ∀ f, (sf_rename oldGlob newGlob opr npr flags oldPathErr newPathErr
          src_i_mode hostErr).sentFlags = some f → f = 0) ∧
    ((sf_rename oldGlob newGlob opr npr flags oldPathErr newPathErr
        src_i_mode hostErr).ret = 0 →
      (sf_rename oldGlob newGlob opr npr flags oldPathErr newPathErr
          src_i_mode hostErr).old_parent_restat = true ∧
      (sf_rename oldGlob newGlob opr npr flags oldPathErr newPathErr
          src_i_mode hostErr).new_parent_restat = true) := by
  refine ⟨fun hf => ?_, fun hg => ?_, fun hd f hsent => ?_, fun hret => ?_⟩
  · simp only [sf_rename, if_pos hf]
    exact ⟨trivial, trivial⟩
  · by_cases hf : flags ≠ 0
    · simp only [sf_rename, if_pos hf]; exact ⟨trivial, trivial⟩
    · simp only [sf_rename, if_neg hf, if_pos hg]; exact ⟨trivial, trivial⟩
  · by_cases h1 : flags ≠ 0
    · simp only [sf_rename, if_pos h1] at hsent
      exact absurd hsent (by simp)
    · by_cases h2 : oldGlob ≠ newGlob
      · simp only [sf_rename, if_neg h1, if_pos h2] at hsent
        exact absurd hsent (by simp)
      · by_cases h3 : oldPathErr ≠ 0
        · simp only [sf_rename, if_neg h1, if_neg h2, if_pos h3] at hsent
          exact absurd hsent (by simp)
        · by_cases h4 : newPathErr ≠ 0
          · simp only [sf_rename, if_neg h1, if_neg h2, if_neg h3,
              if_pos h4] at hsent
            exact absurd hsent (by simp)
          · by_cases h5 : hostErr = 0
            · simp only [sf_rename, if_neg h1, if_neg h2, if_neg h3, if_neg h4,
                if_pos hd, if_pos h5, Option.some.injEq] at hsent
              exact hsent.symm
            · simp only [sf_rename, if_neg h1, if_neg h2, if_neg h3, if_neg h4,
                if_pos hd, if_neg h5, Option.some.injEq] at hsent
              exact hsent.symm
  · by_cases h1 : flags ≠ 0
    · simp only [sf_rename, if_pos h1] at hret
      exact absurd hret (by decide)
    · by_cases h2 : oldGlob ≠ newGlob
      · simp only [sf_rename, if_neg h1, if_pos h2] at hret
        exact absurd hret (by decide)
      · by_cases h3 : oldPathErr ≠ 0
        · simp only [sf_rename, if_neg h1, if_neg h2, if_pos h3] at hret
          exact absurd hret h3
        · by_cases h4 : newPathErr ≠ 0
          · simp only [sf_rename, if_neg h1, if_neg h2, if_neg h3,
              if_pos h4] at hret
            exact absurd hret h4
          · by_cases h5 : hostErr = 0
            · simp only [sf_rename, if_neg h1, if_neg h2, if_neg h3, if_neg h4,
                if_pos h5]
              exact ⟨trivial, trivial⟩
            · simp only [sf_rename, if_neg h1, if_neg h2, if_neg h3, if_neg h4,
                if_neg h5] at hret
              exact absurd hret h5

/-- Witness for C6: a directory rename issues the remote call with flags 0
and on success marks both parents for re-stat. -/
theorem sf_rename_spec_witness :
    (0 : Nat) = 0 ∧
    (sf_rename 1 1 false false 0 0 0 S_IFDIR 0).old_parent_restat = true ∧
    (sf_rename 1 1 false false 0 0 0 S_IFDIR 0).new_parent_restat = true :=
  ⟨rfl,
    ((sf_rename_spec 1 1 false false 0 0 0 S_IFDIR 0).2.2.2 (by decide)).1,
    ((sf_rename_spec 1 1 false false 0 0 0 S_IFDIR 0).2.2.2 (by decide)).2⟩

/-! ## Directory enumeration (dir.c: sf_get_d_type, sf_getdent,
sf_dir_iterate) -/

def DT_UNKNOWN : Nat := 0
def DT_FIFO : Nat := 1
def DT_CHR : Nat := 2
def DT_DIR : Nat := 4
def DT_BLK : Nat := 6
def DT_REG : Nat := 8
def DT_LNK : Nat := 10
def DT_SOCK : Nat := 12
def DT_WHT : Nat := 14

def SHFL_TYPE_MASK : Nat := 0xF000
def SHFL_TYPE_FIFO : Nat := 0x1000
def SHFL_TYPE_DEV_CHAR : Nat := 0x2000
def SHFL_TYPE_DEV_BLOCK : Nat := 0x6000
def SHFL_TYPE_SYMLINK : Nat := 0xA000
def SHFL_TYPE_SOCKET : Nat := 0xC000
def SHFL_TYPE_WHITEOUT : Nat := 0xE000

/-- sf_get_d_type from dir.c: translate the shfl mode type bits to a
DT_xxx value. -/
def sf_get_d_type (mode : Nat) : Nat :=
  if mode &&& SHFL_TYPE_MASK = SHFL_TYPE_FIFO then DT_FIFO
  else if mode &&& SHFL_TYPE_MASK = SHFL_TYPE_DEV_CHAR then DT_CHR
  else if mode &&& SHFL_TYPE_MASK = SHFL_TYPE_DIRECTORY then DT_DIR
  else if mode &&& SHFL_TYPE_MASK = SHFL_TYPE_DEV_BLOCK then DT_BLK
  else if mode &&& SHFL_TYPE_MASK = SHFL_TYPE_FILE then DT_REG
  else if mode &&& SHFL_TYPE_MASK = SHFL_TYPE_SYMLINK then DT_LNK
  else if mode &&& SHFL_TYPE_MASK = SHFL_TYPE_SOCKET then DT_SOCK
  else if mode &&& SHFL_TYPE_MASK = SHFL_TYPE_WHITEOUT then DT_WHT
  else DT_UNKNOWN

/-- One variable-length record of a directory buffer (struct
shfl_dirinfo), at the record level: the attribute mode bits, the decoded
name, and the result of the vboxsf_nlscpy name conversion for it (0 on
success, negative errno when the name copy fails). -/
structure DirRec where
  mode : Nat
  name : String
  nlsErr : Int
deriving DecidableEq, Repr

/-- One bulk buffer (struct sf_dir_buf) holding b->entries records. -/
structure SfDirBuf where
  entries : List DirRec
deriving DecidableEq, Repr

/-- The outcome of sf_getdent: 1 (end of stream), a negative errno from
the name copy, or the extracted (d_name, d_type). -/
inductive GetdentResult where
  | eof
  | fail (e : Int)
  | ok (name : String) (d_type : Nat)
deriving DecidableEq, Repr

/-- sf_getdent from dir.c: walk the buffer list, skipping buffers whose
entry count the position exhausts, then extract the record at the
remaining index of the target buffer (the linear variable-length record
walk, modelled at the record level). -/
def sf_getdent : List SfDirBuf → Nat → GetdentResult
  | [], _ => .eof
  | b :: rest, pos =>
    if h : pos < b.entries.length then
      let info := b.entries.get ⟨pos, h⟩
      if info.nlsErr = 0 then .ok info.name (sf_get_d_type info.mode)
      else .fail info.nlsErr
    else sf_getdent rest (pos - b.entries.length)

/-- Total number of records across the buffer list. -/
def totalEntries (bufs : List SfDirBuf) : Nat :=
  (bufs.map (fun b => b.entries.length)).sum

theorem sf_getdent_eof_iff (bufs : List SfDirBuf) (pos : Nat) :
    sf_getdent bufs pos = .eof ↔ totalEntries bufs ≤ pos := by
  induction bufs generalizing pos with
  | nil => simp [sf_getdent, totalEntries]
  | cons b rest ih =>
    simp only [sf_getdent, totalEntries, List.map_cons, List.sum_cons]
    by_cases h : pos < b.entries.length
    · rw [dif_pos h]
      constructor
      · intro hc
        split at hc
        · exact absurd hc (by simp)
        · exact absurd hc (by simp)
      · intro hle
        exact absurd hle (by omega)
    · rw [dif_neg h, ih]
      simp only [totalEntries]
      omega

/-- One tuple fed to dir_emit: name, the position it was extracted from,
the fabricated inode number, and the d_type. -/
structure DirEmitted where
  name : String
  pos : Nat
  ino : Nat
  d_type : Nat
deriving DecidableEq, Repr

/-- Result of the enumeration: return value, final position, and the
emitted tuples in order. -/
structure IterOut where
  ret : Int
  pos : Nat
  emitted : List DirEmitted
deriving DecidableEq, Repr

/-- The loop body of sf_dir_iterate.  `inoMax` is the number of values
representable in ino_t (2^32 on a 32-bit kernel, 2^64 on 64-bit):
`x % inoMax` is the truncation of the loff_t sanity value to ino_t, and
the C overflow check `sanity - fake_ino != 0` is
`pos + 0xbeef ≠ (pos + 0xbeef) % inoMax`.  `cap` models the consumer
behind dir_emit, which accepts entries until it holds `cap` of them.  The
loop visits each remaining record at most once, so it is driven by the
fuel `totalEntries bufs - pos` supplied by sf_dir_iterate; at fuel 0 the
position is at or past end of stream, where sf_getdent reports eof and
the loop stops with return 0 either way. -/
def sf_dir_iterate_go (inoMax : Nat) (bufs : List SfDirBuf) (cap : Nat) :
    Nat → Nat → List DirEmitted → IterOut
  | 0, pos, acc => { ret := 0, pos := pos, emitted := acc }
  | fuel + 1, pos, acc =>
    match sf_getdent bufs pos with
    | .eof => { ret := 0, pos := pos, emitted := acc }
    | .fail _ => sf_dir_iterate_go inoMax bufs cap fuel (pos + 1) acc
    | .ok name dt =>
      if pos + 0xbeef ≠ (pos + 0xbeef) % inoMax then
        { ret := -EINVAL, pos := pos, emitted := acc }
      else if acc.length < cap then
        sf_dir_iterate_go inoMax bufs cap fuel (pos + 1)
          (acc ++ [{ name := name, pos := pos,
                     ino := (pos + 0xbeef) % inoMax, d_type := dt }])
      else { ret := 0, pos := pos, emitted := acc }

/-- sf_dir_iterate from dir.c, starting at position pos (ctx->pos). -/
def sf_dir_iterate (inoMax : Nat) (bufs : List SfDirBuf) (cap pos : Nat) :
    IterOut :=
  sf_dir_iterate_go inoMax bufs cap (totalEntries bufs - pos) pos []

theorem sf_dir_iterate_go_emitted (inoMax : Nat) (hm : 0 < inoMax)
    (bufs : List SfDirBuf) (cap : Nat) :
    ∀ (fuel pos : Nat) (acc : List DirEmitted),
      ∀ e ∈ (sf_dir_iterate_go inoMax bufs cap fuel pos acc).emitted,
        e ∈ acc ∨ (e.ino = e.pos + 0xbeef ∧ e.pos + 0xbeef < inoMax) := by
  intro fuel
  induction fuel with
  | zero => intro pos acc e he; exact Or.inl he
  | succ f ih =>
    intro pos acc e he
    simp only [sf_dir_iterate_go] at he
    split at he
    · exact Or.inl he
    · exact ih (pos + 1) acc e he
    · by_cases hov : pos + 0xbeef ≠ (pos + 0xbeef) % inoMax
      · rw [if_pos hov] at he
        exact Or.inl he
      · rw [if_neg hov] at he
        by_cases hcap : acc.length < cap
        · rw [if_pos hcap] at he
          have heq2 : pos + 0xbeef = (pos + 0xbeef) % inoMax := not_ne_iff.mp hov
          rcases ih (pos + 1) _ e he with hmem | hP
          · rcases List.mem_append.mp hmem with hacc | hnew
            · exact Or.inl hacc
            · right
              rw [List.mem_singleton] at hnew
              subst hnew
              constructor
              · exact heq2.symm
              · show pos + 0xbeef < inoMax
                have hmod := Nat.mod_lt (pos + 0xbeef) hm
                omega
          · exact Or.inr hP
        · rw [if_neg hcap] at he
          exact Or.inl he

/-- Claim C7: every identifier emitted by the enumeration equals the
position it was emitted at plus the fixed offset 0xbeef and fits the
ino_t range; and at any position whose derived identifier does not fit
(inoMax ≤ pos + 0xbeef) with a decodable record, the enumeration aborts
with the fatal error -EINVAL, emitting nothing. -/
theorem sf_dir_iterate_fake_ino_spec (inoMax : Nat) (bufs : List SfDirBuf)
    (cap p : Nat) (hm : 0 < inoMax) :
    (∀ e ∈ (sf_dir_iterate inoMax bufs cap p).emitted,
      e.ino = e.pos + 0xbeef ∧ e.pos + 0xbeef < inoMax) ∧
    (∀ name dt, sf_getdent bufs p = .ok name dt → inoMax ≤ p + 0xbeef →
      sf_dir_iterate inoMax bufs cap p =
        { ret := -EINVAL, pos := p, emitted := [] }) := by
  constructor
  · intro e he
    rcases sf_dir_iterate_go_emitted inoMax hm bufs cap _ p [] e he with h | h
    · exact absurd h (by simp)
    · exact h
  · intro name dt hok hge
    have hlt : p < totalEntries bufs := by
      by_contra hcon
      have heof : sf_getdent bufs p = .eof :=
        (sf_getdent_eof_iff bufs p).mpr (by omega)
      rw [heof] at hok
      exact absurd hok (by simp)
    obtain ⟨k, hk⟩ : ∃ k, totalEntries bufs - p = k + 1 :=
      ⟨totalEntries bufs - p - 1, by omega⟩
    have hov : p + 0xbeef ≠ (p + 0xbeef) % inoMax := by
      have := Nat.mod_lt (p + 0xbeef) hm
      omega
    simp only [sf_dir_iterate]
    rw [hk]
    simp only [sf_dir_iterate_go]
    split
    · next heq => rw [hok] at heq; exact absurd heq (by simp)
    · next e2 heq => rw [hok] at heq; exact absurd heq (by simp)
    · next nm2 dt2 heq => rw [if_pos hov]

/-- Witness for C7 at a concrete directory of one regular file: the single
emitted identifier is position 0 plus 0xbeef and fits a 32-bit ino_t. -/
theorem sf_dir_iterate_fake_ino_spec_witness :
    (⟨"a", 0, 0xbeef, DT_REG⟩ : DirEmitted).ino = 0 + 0xbeef ∧
    (0 : Nat) + 0xbeef < 2 ^ 32 :=
  (sf_dir_iterate_fake_ino_spec (2 ^ 32) [⟨[⟨SHFL_TYPE_FILE, "a", 0⟩]⟩] 10 0
    (by decide)).1 ⟨"a", 0, 0xbeef, DT_REG⟩ (by decide)

/-- Claim C8: a record whose decode fails is skipped: the enumeration
from that position equals the enumeration from the next position (the
position advances by exactly one and the loop continues); end of stream,
the distinguished non-error sf_getdent outcome, terminates the loop with
return value 0. -/
theorem sf_dir_iterate_skip_spec (inoMax : Nat) (bufs : List SfDirBuf)
    (cap pos : Nat) :
    (∀ e, sf_getdent bufs pos = .fail e →
      sf_dir_iterate inoMax bufs cap pos =
        sf_dir_iterate inoMax bufs cap (pos + 1)) ∧
    (sf_getdent bufs pos = .eof →
      sf_dir_iterate inoMax bufs cap pos =
        { ret := 0, pos := pos, emitted := [] }) := by
  constructor
  · intro e hf
    have hlt : pos < totalEntries bufs := by
      by_contra hcon
      have heof : sf_getdent bufs pos = .eof :=
        (sf_getdent_eof_iff bufs pos).mpr (by omega)
      rw [heof] at hf
      exact absurd hf (by simp)
    have hk : totalEntries bufs - pos = (totalEntries bufs - (pos + 1)) + 1 := by
      omega
    simp only [sf_dir_iterate]
    rw [hk]
    simp only [sf_dir_iterate_go]
    split
    · next heq => rw [hf] at heq; exact absurd heq (by simp)
    · next e2 heq => rfl
    · next nm2 dt2 heq => rw [hf] at heq; exact absurd heq (by simp)
  · intro he
    have hz : totalEntries bufs - pos = 0 := by
      have := (sf_getdent_eof_iff bufs pos).mp he
      omega
    simp only [sf_dir_iterate, hz, sf_dir_iterate_go]

/-- Witness for C8: a one-record directory whose record fails the name
copy; enumeration from 0 equals enumeration from 1, which is end of
stream. -/
theorem sf_dir_iterate_skip_spec_witness :
    sf_dir_iterate (2 ^ 32) [⟨[⟨SHFL_TYPE_FILE, "x", -5⟩]⟩] 10 0 =
      sf_dir_iterate (2 ^ 32) [⟨[⟨SHFL_TYPE_FILE, "x", -5⟩]⟩] 10 1 :=
  (sf_dir_iterate_skip_spec (2 ^ 32) [⟨[⟨SHFL_TYPE_FILE, "x", -5⟩]⟩] 10 0).1
    (-5) (by decide)

end Vboxsf
